import Mathlib

/-!
Verification of the NyumbaTZ client-side property data layer: the
normalization functions converting raw database records to the canonical
Property shape, the in-memory fallback filter pipeline of the useProperties
hook, the remote list-query predicate built by db.properties.getAll, the
query-cache invalidation performed by the mutation hooks, the view-count
mutation, and the query-client retry policy.

Shallow embedding conventions:
- JavaScript numbers appearing as record fields are modelled as Nat; a field
  that may be undefined or null is modelled as Option.
- JavaScript truthiness guards of the form `if (x)` on an optional string or
  number are modelled by truthyStr / truthyNat: none (undefined) is falsy,
  the empty string and 0 are falsy, everything else is truthy.  An array is
  always truthy in JavaScript, so `a || b` on an optional array field only
  substitutes b when the field is null or absent; this is modelled by
  Option.getD.
- JavaScript comparisons against undefined (for example `undefined >= 5`)
  are false; the price predicates reflect this by failing when the field is
  none.
-/

/-- Property type enum, matching the property_type union in the source. -/
inductive PropertyType where
  | house
  | apartment
  | studio
  | villa
  | room
deriving DecidableEq

/-- Status enum of the canonical Property shape. -/
inductive PropStatus where
  | available
  | rented
  | maintenance
deriving DecidableEq

/-- Nested location object of the canonical Property shape. -/
structure PropLocation where
  address : String
  city : String
  district : String
  neighborhood : String
deriving DecidableEq

/-- Canonical Property shape used by the app (src/types Property as consumed
by useProperties.ts and mockData.ts).  priceMonthly and views are optional
because the converters can produce undefined for them. -/
structure Property where
  id : String
  ownerId : String
  title : String
  description : String
  priceMonthly : Option Nat
  location : PropLocation
  bedrooms : Nat
  bathrooms : Nat
  propertyType : PropertyType
  amenities : List String
  images : List String
  status : PropStatus
  createdDate : String
  updatedDate : String
  featured : Bool
  views : Option Nat
deriving DecidableEq

/-- Search filter object as used by the fallback branch of useProperties
(fields location, priceMin, priceMax, propertyType, bedrooms, bathrooms);
every criterion is optional. -/
structure SearchFilters where
  location : Option String := none
  priceMin : Option Nat := none
  priceMax : Option Nat := none
  propertyType : Option PropertyType := none
  bedrooms : Option Nat := none
  bathrooms : Option Nat := none
deriving DecidableEq

/-- JavaScript truthiness of an optional string: undefined and the empty
string are falsy. -/
def truthyStr : Option String → Bool
  | none => false
  | some s => !(decide (s = ""))

/-- JavaScript truthiness of an optional number: undefined and 0 are falsy. -/
def truthyNat : Option Nat → Bool
  | none => false
  | some n => !(decide (n = 0))

/-- Check that the first character run is an initial segment of the second
(the character-list core of String.startsWith). -/
def charRunLeads : List Char → List Char → Bool
  | [], _ => true
  | _ :: _, [] => false
  | a :: as, b :: bs => a == b && charRunLeads as bs

/-- Check that the first character run occurs contiguously inside the second
(the character-list core of JavaScript String.prototype.includes). -/
def charRunContains (needle : List Char) : List Char → Bool
  | [] => needle.isEmpty
  | b :: rest => charRunLeads needle (b :: rest) || charRunContains needle rest

/-- Characters of a string, lowercased (the character-level content of
JavaScript String.prototype.toLowerCase for the ASCII data appearing in this
repository). -/
def lowerChars (s : String) : List Char :=
  s.data.map Char.toLower

/-- JavaScript hay.toLowerCase().includes(needle.toLowerCase()). -/
def strLowerIncludes (hay needle : String) : Bool :=
  charRunContains (lowerChars needle) (lowerChars hay)

/-- Location criterion of the fallback branch:
p.location.city.toLowerCase().includes(filters.location.toLowerCase()). -/
def locationPred (loc : String) (p : Property) : Bool :=
  strLowerIncludes p.location.city loc

/-- Lower price bound, p.priceMonthly >= bound; an undefined priceMonthly
compares false in JavaScript. -/
def priceGe (p : Property) (bound : Nat) : Bool :=
  match p.priceMonthly with
  | some v => decide (bound ≤ v)
  | none => false

/-- Upper price bound, p.priceMonthly <= bound; an undefined priceMonthly
compares false in JavaScript. -/
def priceLe (p : Property) (bound : Nat) : Bool :=
  match p.priceMonthly with
  | some v => decide (v ≤ bound)
  | none => false

/-- One conditional stage of the fallback filter pipeline:
if (guard) filtered = filtered.filter(pred). -/
def condFilter (guard : Bool) (pred : Property → Bool) (ps : List Property) :
    List Property :=
  if guard then ps.filter pred else ps

/-- Fallback filter pipeline of useProperties (the branch taken when the
backend is not configured), stage for stage as in the source: location,
priceMin, priceMax, propertyType, bedrooms, bathrooms, each applied only when
its filter value is truthy. -/
def applyFilters (ps : List Property) (filters : SearchFilters) :
    List Property :=
  let l1 := condFilter (truthyStr filters.location)
    (fun p => locationPred (filters.location.getD "") p) ps
  let l2 := condFilter (truthyNat filters.priceMin)
    (fun p => priceGe p (filters.priceMin.getD 0)) l1
  let l3 := condFilter (truthyNat filters.priceMax)
    (fun p => priceLe p (filters.priceMax.getD 0)) l2
  let l4 := condFilter filters.propertyType.isSome
    (fun p => decide (some p.propertyType = filters.propertyType)) l3
  let l5 := condFilter (truthyNat filters.bedrooms)
    (fun p => decide (filters.bedrooms.getD 0 ≤ p.bedrooms)) l4
  condFilter (truthyNat filters.bathrooms)
    (fun p => decide (filters.bathrooms.getD 0 ≤ p.bathrooms)) l5

/-- Per-element predicate equivalent of the fallback pipeline: a property
survives applyFilters exactly when every truthy criterion accepts it. -/
def fallbackPred (filters : SearchFilters) (p : Property) : Bool :=
  ((((( !truthyStr filters.location ||
        locationPred (filters.location.getD "") p) &&
      (!truthyNat filters.priceMin || priceGe p (filters.priceMin.getD 0))) &&
      (!truthyNat filters.priceMax || priceLe p (filters.priceMax.getD 0))) &&
      (!filters.propertyType.isSome ||
        decide (some p.propertyType = filters.propertyType))) &&
      (!truthyNat filters.bedrooms ||
        decide (filters.bedrooms.getD 0 ≤ p.bedrooms))) &&
      (!truthyNat filters.bathrooms ||
        decide (filters.bathrooms.getD 0 ≤ p.bathrooms))

lemma condFilter_eq_filter (guard : Bool) (pred : Property → Bool)
    (ps : List Property) :
    condFilter guard pred ps = ps.filter (fun p => !guard || pred p) := by
  cases guard <;> simp [condFilter]

lemma applyFilters_eq_filter (ps : List Property) (filters : SearchFilters) :
    applyFilters ps filters = ps.filter (fallbackPred filters) := by
  simp only [applyFilters, condFilter_eq_filter, List.filter_filter]
  apply List.filter_congr
  intro p _
  simp only [fallbackPred]
  cases truthyStr filters.location <;>
    cases truthyNat filters.priceMin <;>
    cases truthyNat filters.priceMax <;>
    cases filters.propertyType.isSome <;>
    cases truthyNat filters.bedrooms <;>
    cases truthyNat filters.bathrooms <;>
    simp [Bool.and_comm, Bool.and_left_comm, Bool.and_assoc]

/-- Intersection of two property lists, first operand order kept. -/
def listInter (l1 l2 : List Property) : List Property :=
  l1.filter (fun x => decide (x ∈ l2))

/-- C4: the empty filter object leaves any property list unchanged, and a
location value of the empty string behaves exactly like an absent location
criterion (the JavaScript truthiness guard skips both). -/
theorem applyFilters_empty_and_blank_location (P : List Property)
    (f : SearchFilters) :
    applyFilters P {} = P ∧
    applyFilters P { f with location := some "" } =
      applyFilters P { f with location := none } := by
  constructor <;> rfl

/-- C10: a numeric filter value of 0 is falsy in JavaScript, so each of
priceMax 0, priceMin 0, bedrooms 0 and bathrooms 0 imposes no constraint and
returns the list unchanged. -/
theorem applyFilters_zero_is_unset (P : List Property) :
    applyFilters P { priceMax := some 0 } = P ∧
    applyFilters P { priceMin := some 0 } = P ∧
    applyFilters P { bedrooms := some 0 } = P ∧
    applyFilters P { bathrooms := some 0 } = P := by
  refine ⟨rfl, rfl, rfl, rfl⟩

/-!
Mock dataset from src/data/mockData.ts.  The createdDate/updatedDate values
in the source are computed from the clock at module load (Date.now() minus a
number of days) and are never inspected by the filter pipeline; they are
embedded as empty strings.  The views field is absent from every mock record.
-/

/-- Mock property 1 (Masaki, Dar es Salaam, 1200000). -/
def mockProperty1 : Property :=
  { id := "1", ownerId := "owner-1",
    title := "Modern 3BR House in Masaki",
    description := "Beautiful modern house in the prestigious Masaki area with sea views. Perfect for professionals and families. Fully furnished with modern amenities including air conditioning, generator backup, and 24/7 security.",
    priceMonthly := some 1200000,
    location := { address := "Masaki Peninsula", city := "Dar es Salaam",
                  district := "Masaki", neighborhood := "Masaki" },
    bedrooms := 3, bathrooms := 2, propertyType := .house,
    amenities := ["Parking", "Security", "Generator", "Water Tank", "Garden",
                  "Air Conditioning", "Internet", "Furnished"],
    images := ["https://images.pexels.com/photos/106399/pexels-photo-106399.jpeg?auto=compress&cs=tinysrgb&w=800",
               "https://images.pexels.com/photos/1643383/pexels-photo-1643383.jpeg?auto=compress&cs=tinysrgb&w=800",
               "https://images.pexels.com/photos/1571460/pexels-photo-1571460.jpeg?auto=compress&cs=tinysrgb&w=800"],
    status := .available, createdDate := "", updatedDate := "",
    featured := true, views := none }

/-- Mock property 2 (Mikocheni, Dar es Salaam, 550000). -/
def mockProperty2 : Property :=
  { id := "2", ownerId := "owner-1",
    title := "Cozy 2BR Apartment in Mikocheni",
    description := "Well-maintained 2-bedroom apartment in Mikocheni. Close to shopping centers and public transport. Features include parking space, water tank, and reliable internet connection.",
    priceMonthly := some 550000,
    location := { address := "Mikocheni B", city := "Dar es Salaam",
                  district := "Mikocheni", neighborhood := "Mikocheni" },
    bedrooms := 2, bathrooms := 1, propertyType := .apartment,
    amenities := ["Parking", "Security", "Water Tank", "Internet", "Balcony"],
    images := ["https://images.pexels.com/photos/1571453/pexels-photo-1571453.jpeg?auto=compress&cs=tinysrgb&w=800",
               "https://images.pexels.com/photos/1643383/pexels-photo-1643383.jpeg?auto=compress&cs=tinysrgb&w=800"],
    status := .available, createdDate := "", updatedDate := "",
    featured := false, views := none }

/-- Mock property 3 (Oyster Bay, Dar es Salaam, 2500000). -/
def mockProperty3 : Property :=
  { id := "3", ownerId := "owner-1",
    title := "Luxury Villa in Oyster Bay",
    description := "Stunning luxury villa with ocean views in Oyster Bay. Features spacious rooms, private garden, swimming pool, and top-notch security. Perfect for executives and diplomats.",
    priceMonthly := some 2500000,
    location := { address := "Oyster Bay Road", city := "Dar es Salaam",
                  district := "Oyster Bay", neighborhood := "Oyster Bay" },
    bedrooms := 4, bathrooms := 3, propertyType := .villa,
    amenities := ["Parking", "Security", "Generator", "Water Tank", "Garden",
                  "Swimming Pool", "Air Conditioning", "Internet", "Furnished"],
    images := ["https://images.pexels.com/photos/1396122/pexels-photo-1396122.jpeg?auto=compress&cs=tinysrgb&w=800",
               "https://images.pexels.com/photos/1732414/pexels-photo-1732414.jpeg?auto=compress&cs=tinysrgb&w=800",
               "https://images.pexels.com/photos/259588/pexels-photo-259588.jpeg?auto=compress&cs=tinysrgb&w=800"],
    status := .available, createdDate := "", updatedDate := "",
    featured := true, views := none }

/-- Mock property 4 (Ilemela, Mwanza, 800000). -/
def mockProperty4 : Property :=
  { id := "4", ownerId := "owner-1",
    title := "Executive House in Mwanza City",
    description := "Executive 4-bedroom house near Lake Victoria. Perfect for business executives with family. Features include large compound, parking for 3 cars, generator, and beautiful lake views.",
    priceMonthly := some 800000,
    location := { address := "Ilemela District", city := "Mwanza",
                  district := "Ilemela", neighborhood := "Ilemela" },
    bedrooms := 4, bathrooms := 3, propertyType := .house,
    amenities := ["Parking", "Security", "Generator", "Water Tank", "Garden",
                  "Internet"],
    images := ["https://images.pexels.com/photos/323780/pexels-photo-323780.jpeg?auto=compress&cs=tinysrgb&w=800",
               "https://images.pexels.com/photos/1396122/pexels-photo-1396122.jpeg?auto=compress&cs=tinysrgb&w=800"],
    status := .available, createdDate := "", updatedDate := "",
    featured := false, views := none }

/-- Mock property 5 (Mbeya Urban, Mbeya, 280000). -/
def mockProperty5 : Property :=
  { id := "5", ownerId := "owner-1",
    title := "Modern Studio in Mbeya",
    description := "Compact modern studio apartment perfect for students and young professionals in Mbeya. Features include kitchenette, private bathroom, and reliable internet.",
    priceMonthly := some 280000,
    location := { address := "Mbeya Urban", city := "Mbeya",
                  district := "Mbeya Urban", neighborhood := "Mbeya Urban" },
    bedrooms := 1, bathrooms := 1, propertyType := .studio,
    amenities := ["Security", "Internet"],
    images := ["https://images.pexels.com/photos/1571460/pexels-photo-1571460.jpeg?auto=compress&cs=tinysrgb&w=800"],
    status := .available, createdDate := "", updatedDate := "",
    featured := false, views := none }

/-- Mock property 6 (Arusha Central, Arusha, 950000). -/
def mockProperty6 : Property :=
  { id := "6", ownerId := "owner-1",
    title := "Safari Lodge Style House in Arusha",
    description := "Unique safari lodge style house in Arusha, perfect for tourists and expatriates. Close to Mount Meru with stunning mountain views. Features include fireplace, large garden, and traditional Tanzanian architecture.",
    priceMonthly := some 950000,
    location := { address := "Arusha Central", city := "Arusha",
                  district := "Arusha Central", neighborhood := "Arusha Central" },
    bedrooms := 3, bathrooms := 2, propertyType := .house,
    amenities := ["Parking", "Security", "Water Tank", "Garden", "Internet"],
    images := ["https://images.pexels.com/photos/259588/pexels-photo-259588.jpeg?auto=compress&cs=tinysrgb&w=800",
               "https://images.pexels.com/photos/1396122/pexels-photo-1396122.jpeg?auto=compress&cs=tinysrgb&w=800"],
    status := .available, createdDate := "", updatedDate := "",
    featured := false, views := none }

/-- Mock property 7 (Mbeya Highlands, Mbeya, 450000). -/
def mockProperty7 : Property :=
  { id := "7", ownerId := "owner-1",
    title := "Family Apartment in Mbeya Highlands",
    description := "Spacious 3-bedroom apartment in the cool highlands of Mbeya. Perfect for families with children. Features include balcony with mountain views, parking, and proximity to schools.",
    priceMonthly := some 450000,
    location := { address := "Mbeya Highlands", city := "Mbeya",
                  district := "Mbeya Highlands", neighborhood := "Mbeya Highlands" },
    bedrooms := 3, bathrooms := 2, propertyType := .apartment,
    amenities := ["Security", "Water Tank", "Internet"],
    images := ["https://images.pexels.com/photos/323780/pexels-photo-323780.jpeg?auto=compress&cs=tinysrgb&w=800",
               "https://images.pexels.com/photos/1643383/pexels-photo-1643383.jpeg?auto=compress&cs=tinysrgb&w=800"],
    status := .available, createdDate := "", updatedDate := "",
    featured := false, views := none }

/-- Mock property 8 (Temeke, Dar es Salaam, 180000). -/
def mockProperty8 : Property :=
  { id := "8", ownerId := "owner-1",
    title := "Single Room in Temeke",
    description := "Affordable single room in Temeke area. Perfect for students and young professionals. Shared bathroom and kitchen facilities. Close to public transport and markets.",
    priceMonthly := some 180000,
    location := { address := "Temeke District", city := "Dar es Salaam",
                  district := "Temeke", neighborhood := "Temeke" },
    bedrooms := 1, bathrooms := 1, propertyType := .room,
    amenities := ["Security"],
    images := ["https://images.pexels.com/photos/1571460/pexels-photo-1571460.jpeg?auto=compress&cs=tinysrgb&w=800"],
    status := .available, createdDate := "", updatedDate := "",
    featured := false, views := none }

/-- Mock property 9 (University Area, Morogoro, 600000). -/
def mockProperty9 : Property :=
  { id := "9", ownerId := "owner-1",
    title := "University Area House in Morogoro",
    description := "Perfect for university staff and families. 3-bedroom house near Sokoine University of Agriculture. Features include large compound, fruit trees, and quiet neighborhood.",
    priceMonthly := some 600000,
    location := { address := "University Area", city := "Morogoro",
                  district := "University Area", neighborhood := "University Area" },
    bedrooms := 3, bathrooms := 2, propertyType := .house,
    amenities := ["Parking", "Security", "Water Tank", "Garden", "Internet"],
    images := ["https://images.pexels.com/photos/106399/pexels-photo-106399.jpeg?auto=compress&cs=tinysrgb&w=800",
               "https://images.pexels.com/photos/323780/pexels-photo-323780.jpeg?auto=compress&cs=tinysrgb&w=800"],
    status := .available, createdDate := "", updatedDate := "",
    featured := false, views := none }

/-- The 9-entry mock dataset, in source order. -/
def mockProperties : List Property :=
  [mockProperty1, mockProperty2, mockProperty3, mockProperty4, mockProperty5,
   mockProperty6, mockProperty7, mockProperty8, mockProperty9]

/-- C3: the filter set with location "Dar" and priceMax 600000 applied to the
mock dataset in fallback mode returns exactly the records with ids 2
(Mikocheni, 550000) and 8 (Temeke, 180000), in their original relative
order. -/
theorem applyFilters_dar_600k_scenario :
    applyFilters mockProperties
        { location := some "Dar", priceMax := some 600000 } =
      [mockProperty2, mockProperty8] ∧
    mockProperty2.id = "2" ∧
    mockProperty2.location.district = "Mikocheni" ∧
    mockProperty2.priceMonthly = some 550000 ∧
    mockProperty8.id = "8" ∧
    mockProperty8.location.district = "Temeke" ∧
    mockProperty8.priceMonthly = some 180000 := by
  refine ⟨?_, rfl, rfl, rfl, rfl, rfl, rfl⟩
  rfl

lemma listInter_filter_right (l : List Property) (p q : Property → Bool) :
    listInter (l.filter p) (l.filter q) =
      (l.filter p).filter (fun a => q a) := by
  unfold listInter
  apply List.filter_congr
  intro a ha
  have haP : a ∈ l := List.mem_of_mem_filter ha
  simp [List.mem_filter, haP]

/-- C5: combining the priceMin and bedrooms criteria equals intersecting the
two independently filtered results (AND semantics), and for every filter set
the output is a subsequence of the input, so the relative input order is
kept. -/
theorem applyFilters_and_semantics_sublist :
    (∀ (P : List Property) (pm bd : Option Nat),
        applyFilters P { priceMin := pm, bedrooms := bd } =
          listInter (applyFilters P { priceMin := pm })
            (applyFilters P { bedrooms := bd })) ∧
    (∀ (P : List Property) (f : SearchFilters),
        (applyFilters P f).Sublist P) := by
  constructor
  · intro P pm bd
    rw [applyFilters_eq_filter, applyFilters_eq_filter, applyFilters_eq_filter,
      listInter_filter_right, List.filter_filter]
    apply List.filter_congr
    intro p _
    simp only [fallbackPred, truthyStr, truthyNat]
    cases hpm : pm <;> cases hbd : bd <;>
      simp [Bool.and_comm, Bool.and_left_comm, Bool.and_assoc]
  · intro P f
    rw [applyFilters_eq_filter]
    exact List.filter_sublist P

/-!
Normalization layer.  Raw database record shape as consumed by the two
convertDbPropertyToAppProperty variants.  A field that a given raw record may
lack (or hold null in) is an Option; the database schema names monthly_rent
while the converter in useProperties.ts reads price_monthly, so the record
carries both optional spellings of the price field.
-/

/-- Raw database property record (two observed field-naming conventions for
the price live side by side as optional fields). -/
structure DbPropertyRecord where
  id : String
  owner_id : String
  title : String
  description : String
  property_type : PropertyType
  bedrooms : Nat
  bathrooms : Nat
  monthly_rent : Option Nat
  price_monthly : Option Nat
  city : String
  area : String
  address : Option String
  images : Option (List String)
  amenities : Option (List String)
  is_available : Bool
  is_featured : Option Bool
  created_at : String
  updated_at : String
deriving DecidableEq

/-- Placeholder image URL substituted for a null or absent images field. -/
def placeholderImageUrl : String :=
  "https://images.pexels.com/photos/106399/pexels-photo-106399.jpeg"

/-- Converter from src/hooks/useProperties.ts.  The JavaScript defaults use
the or-operator, which substitutes the fallback exactly when the field is
null or undefined here: arrays (even empty ones) are truthy and pass through
unchanged, an absent address yields the empty string, and an absent
is_featured yields false; all of these coincide with Option.getD. -/
def convertDbPropertyToAppProperty (dbProperty : DbPropertyRecord) :
    Property :=
  { id := dbProperty.id,
    ownerId := dbProperty.owner_id,
    title := dbProperty.title,
    description := dbProperty.description,
    priceMonthly := dbProperty.price_monthly,
    location := { address := dbProperty.address.getD "",
                  city := dbProperty.city,
                  district := dbProperty.area,
                  neighborhood := dbProperty.area },
    bedrooms := dbProperty.bedrooms,
    bathrooms := dbProperty.bathrooms,
    propertyType := dbProperty.property_type,
    amenities := dbProperty.amenities.getD [],
    images := dbProperty.images.getD [placeholderImageUrl],
    status := if dbProperty.is_available then .available else .rented,
    createdDate := dbProperty.created_at,
    updatedDate := dbProperty.updated_at,
    featured := dbProperty.is_featured.getD false,
    views := none }

/-- Converter variant from the HomePage component in src/main.tsx: it reads
the price from monthly_rent, hardcodes the address to the empty string and
featured to false; images, amenities and status are handled as in the other
variant. -/
def convertDbPropertyToAppPropertyHome (dbProperty : DbPropertyRecord) :
    Property :=
  { id := dbProperty.id,
    ownerId := dbProperty.owner_id,
    title := dbProperty.title,
    description := dbProperty.description,
    priceMonthly := dbProperty.monthly_rent,
    location := { address := "",
                  city := dbProperty.city,
                  district := dbProperty.area,
                  neighborhood := dbProperty.area },
    bedrooms := dbProperty.bedrooms,
    bathrooms := dbProperty.bathrooms,
    propertyType := dbProperty.property_type,
    amenities := dbProperty.amenities.getD [],
    images := dbProperty.images.getD [placeholderImageUrl],
    status := if dbProperty.is_available then .available else .rented,
    createdDate := dbProperty.created_at,
    updatedDate := dbProperty.updated_at,
    featured := false,
    views := none }

/-- C1: a raw record in the monthly_rent naming convention with rent 800000,
is_available true and null images and amenities normalizes (through the
converter handling that convention, the HomePage variant) to priceMonthly
800000, status available, the one-element placeholder image list and empty
amenities. -/
theorem convert_monthly_rent_scenario (r : DbPropertyRecord)
    (hrent : r.monthly_rent = some 800000)
    (havail : r.is_available = true)
    (himages : r.images = none)
    (hamenities : r.amenities = none) :
    (convertDbPropertyToAppPropertyHome r).priceMonthly = some 800000 ∧
    (convertDbPropertyToAppPropertyHome r).status = PropStatus.available ∧
    (convertDbPropertyToAppPropertyHome r).images = [placeholderImageUrl] ∧
    (convertDbPropertyToAppPropertyHome r).amenities = [] := by
  simp [convertDbPropertyToAppPropertyHome, hrent, havail, himages,
    hamenities]

/-- Sample raw record in the monthly_rent naming convention with null images
and amenities. -/
def sampleRawMonthlyRent : DbPropertyRecord :=
  { id := "p-800", owner_id := "owner-3",
    title := "Two Bedroom Flat", description := "Central flat",
    property_type := .apartment, bedrooms := 2, bathrooms := 1,
    monthly_rent := some 800000, price_monthly := none,
    city := "Dodoma", area := "Central", address := none,
    images := none, amenities := none,
    is_available := true, is_featured := none,
    created_at := "", updated_at := "" }

theorem convert_monthly_rent_scenario_witness :
    sampleRawMonthlyRent.monthly_rent = some 800000 ∧
    sampleRawMonthlyRent.is_available = true ∧
    sampleRawMonthlyRent.images = none ∧
    sampleRawMonthlyRent.amenities = none ∧
    ((convertDbPropertyToAppPropertyHome sampleRawMonthlyRent).priceMonthly =
        some 800000 ∧
      (convertDbPropertyToAppPropertyHome sampleRawMonthlyRent).status =
        PropStatus.available ∧
      (convertDbPropertyToAppPropertyHome sampleRawMonthlyRent).images =
        [placeholderImageUrl] ∧
      (convertDbPropertyToAppPropertyHome sampleRawMonthlyRent).amenities =
        []) :=
  ⟨rfl, rfl, rfl, rfl,
    convert_monthly_rent_scenario sampleRawMonthlyRent rfl rfl rfl rfl⟩

/-- Sample raw record whose images field holds an empty array. -/
def sampleRawEmptyImages : DbPropertyRecord :=
  { id := "p-empty", owner_id := "owner-4",
    title := "Bare Room", description := "No photos yet",
    property_type := .room, bedrooms := 1, bathrooms := 1,
    monthly_rent := some 120000, price_monthly := some 120000,
    city := "Tanga", area := "Central", address := none,
    images := some [], amenities := none,
    is_available := true, is_featured := none,
    created_at := "", updated_at := "" }

/-- C6 counterexample: an empty images array is truthy in JavaScript, so
both converters pass it through unchanged and the normalized images sequence
is empty, not the placeholder list. -/
theorem convert_empty_images_not_replaced :
    sampleRawEmptyImages.images = some [] ∧
    (convertDbPropertyToAppProperty sampleRawEmptyImages).images = [] ∧
    (convertDbPropertyToAppPropertyHome sampleRawEmptyImages).images = [] :=
  ⟨rfl, rfl, rfl⟩

/-- C6 amended: for every raw record whose images field is null or absent,
both converters substitute the one-element placeholder list (hence images is
non-empty), and a null or absent amenities field defaults to the empty list;
a record holding an empty images array instead keeps it. -/
theorem convert_defaults_images_amenities (r : DbPropertyRecord) :
    (r.images = none →
      (convertDbPropertyToAppProperty r).images = [placeholderImageUrl] ∧
      (convertDbPropertyToAppPropertyHome r).images = [placeholderImageUrl] ∧
      (convertDbPropertyToAppProperty r).images ≠ []) ∧
    (r.amenities = none →
      (convertDbPropertyToAppProperty r).amenities = [] ∧
      (convertDbPropertyToAppPropertyHome r).amenities = []) ∧
    (∀ imgs, r.images = some imgs →
      (convertDbPropertyToAppProperty r).images = imgs) := by
  refine ⟨?_, ?_, ?_⟩
  · intro h
    simp [convertDbPropertyToAppProperty, convertDbPropertyToAppPropertyHome,
      h, placeholderImageUrl]
  · intro h
    simp [convertDbPropertyToAppProperty, convertDbPropertyToAppPropertyHome,
      h]
  · intro imgs h
    simp [convertDbPropertyToAppProperty, h]

theorem convert_defaults_images_amenities_witness :
    sampleRawMonthlyRent.images = none ∧
    sampleRawMonthlyRent.amenities = none ∧
    ((convertDbPropertyToAppProperty sampleRawMonthlyRent).images =
        [placeholderImageUrl] ∧
      (convertDbPropertyToAppPropertyHome sampleRawMonthlyRent).images =
        [placeholderImageUrl] ∧
      (convertDbPropertyToAppProperty sampleRawMonthlyRent).images ≠ []) ∧
    ((convertDbPropertyToAppProperty sampleRawMonthlyRent).amenities = [] ∧
      (convertDbPropertyToAppPropertyHome sampleRawMonthlyRent).amenities =
        []) :=
  ⟨rfl, rfl,
    (convert_defaults_images_amenities sampleRawMonthlyRent).1 rfl,
    (convert_defaults_images_amenities sampleRawMonthlyRent).2.1 rfl⟩

/-!
Remote list query.  db.properties.getAll in src/lib/supabase builds a query
over db rows: a fixed equality constraint is_available = true, then one
conditional constraint per truthy filter key (city ilike, monthly_rent
gte/lte, property_type eq, bedrooms/bathrooms gte, and an or-chain of ilike
constraints for search), plus ordering and pagination.  remoteRowPred is the
per-row predicate of that query; SQL comparisons against a NULL monthly_rent
are not true, so a none price fails the bound constraints.
-/

/-- Filter argument shape declared by db.properties.getAll (pagination keys
limit and offset are omitted: they truncate the result and contribute nothing
to the per-row predicate). -/
structure GetAllFilters where
  city : Option String := none
  priceMin : Option Nat := none
  priceMax : Option Nat := none
  propertyType : Option PropertyType := none
  bedrooms : Option Nat := none
  bathrooms : Option Nat := none
  search : Option String := none
deriving DecidableEq

/-- SQL comparison column >= bound for a nullable numeric column. -/
def colGe (col : Option Nat) (bound : Nat) : Bool :=
  match col with
  | some v => decide (bound ≤ v)
  | none => false

/-- SQL comparison column <= bound for a nullable numeric column. -/
def colLe (col : Option Nat) (bound : Nat) : Bool :=
  match col with
  | some v => decide (v ≤ bound)
  | none => false

/-- Per-row predicate of the query built by db.properties.getAll: the fixed
is_available equality plus each conditionally attached constraint.  An ilike
pattern of the form percent-text-percent is case-insensitive substring
containment. -/
def remoteRowPred (filters : GetAllFilters) (r : DbPropertyRecord) : Bool :=
  r.is_available &&
  (!truthyStr filters.city ||
    strLowerIncludes r.city (filters.city.getD "")) &&
  (!truthyNat filters.priceMin ||
    colGe r.monthly_rent (filters.priceMin.getD 0)) &&
  (!truthyNat filters.priceMax ||
    colLe r.monthly_rent (filters.priceMax.getD 0)) &&
  (!filters.propertyType.isSome ||
    decide (some r.property_type = filters.propertyType)) &&
  (!truthyNat filters.bedrooms ||
    decide (filters.bedrooms.getD 0 ≤ r.bedrooms)) &&
  (!truthyNat filters.bathrooms ||
    decide (filters.bathrooms.getD 0 ≤ r.bathrooms)) &&
  (!truthyStr filters.search ||
    (strLowerIncludes r.title (filters.search.getD "") ||
     strLowerIncludes r.description (filters.search.getD "") ||
     strLowerIncludes r.city (filters.search.getD "") ||
     strLowerIncludes r.area (filters.search.getD "")))

/-- The getAll argument produced by the remote branch of useProperties: the
SearchFilters object itself is passed, and getAll reads the keys city and
search from it; SearchFilters declares neither (its location key is simply
never read by getAll), so both are undefined at this call site while the
identically named keys carry over. -/
def toGetAllFilters (f : SearchFilters) : GetAllFilters :=
  { city := none,
    priceMin := f.priceMin,
    priceMax := f.priceMax,
    propertyType := f.propertyType,
    bedrooms := f.bedrooms,
    bathrooms := f.bathrooms,
    search := none }

/-- Raw available record in Dodoma used to separate the two filter modes. -/
def sampleRawDodoma : DbPropertyRecord :=
  { id := "p-dodoma", owner_id := "owner-5",
    title := "City Flat", description := "Flat in the capital",
    property_type := .apartment, bedrooms := 2, bathrooms := 1,
    monthly_rent := some 300000, price_monthly := some 300000,
    city := "Dodoma", area := "Central", address := none,
    images := none, amenities := none,
    is_available := true, is_featured := none,
    created_at := "", updated_at := "" }

/-- C7 counterexample: for the filter set with location "Dar", the fallback
predicate rejects the Dodoma record while the remote query predicate accepts
it, because getAll reads the absent city key instead of location and so never
applies the location criterion. -/
theorem fallback_remote_location_differ :
    fallbackPred { location := some "Dar" }
        (convertDbPropertyToAppPropertyHome sampleRawDodoma) = false ∧
    remoteRowPred (toGetAllFilters { location := some "Dar" })
        sampleRawDodoma = true :=
  ⟨rfl, rfl⟩

/-- C7 amended: the price bounds, property type and bedroom/bathroom
criteria are applied identically in the two modes, but only on filter sets
whose location criterion is unset (getAll never receives it) and only on
rows with is_available true (the remote query discards other rows
unconditionally, the fallback mode does not). -/
theorem fallback_remote_pred_agree (f : SearchFilters)
    (r : DbPropertyRecord)
    (hloc : truthyStr f.location = false)
    (havail : r.is_available = true) :
    fallbackPred f (convertDbPropertyToAppPropertyHome r) =
      remoteRowPred (toGetAllFilters f) r := by
  obtain ⟨floc, fmin, fmax, fpt, fbd, fba⟩ := f
  simp only [fallbackPred, remoteRowPred, toGetAllFilters,
    convertDbPropertyToAppPropertyHome, priceGe, priceLe, colGe, colLe,
    locationPred] at hloc ⊢
  simp only [hloc, havail]
  cases fmin <;> cases fmax <;> cases fpt <;> cases fbd <;> cases fba <;>
    simp [truthyNat, truthyStr, Bool.and_comm, Bool.and_left_comm,
      Bool.and_assoc]

theorem fallback_remote_pred_agree_witness :
    truthyStr (SearchFilters.location
        { priceMin := some 200000, bedrooms := some 2 }) = false ∧
    sampleRawDodoma.is_available = true ∧
    fallbackPred { priceMin := some 200000, bedrooms := some 2 }
        (convertDbPropertyToAppPropertyHome sampleRawDodoma) =
      remoteRowPred
        (toGetAllFilters { priceMin := some 200000, bedrooms := some 2 })
        sampleRawDodoma :=
  ⟨rfl, rfl,
    fallback_remote_pred_agree
      { priceMin := some 200000, bedrooms := some 2 }
      sampleRawDodoma rfl rfl⟩

/-!
View-count mutation.  useIncrementViews registers a mutationFn that calls
the backend (returning early with success when the backend is not
configured) and an onSuccess callback that rewrites the cached detail record
for the property.  There is no onMutate handler and no onError handler: the
cache is untouched while the request is in flight and untouched when the
request fails.  The model returns the cache at both observation points.
-/

/-- Outcome of the remote incrementViews call. -/
inductive RemoteOutcome where
  | ok
  | err
deriving DecidableEq

/-- Detail cache: property id to cached detail record. -/
def DetailCache : Type :=
  String → Option Property

/-- queryClient.setQueryData on a detail key with a functional updater. -/
def setDetailQueryData (propertyId : String)
    (updater : Option Property → Option Property) (c : DetailCache) :
    DetailCache :=
  fun k => if k = propertyId then updater (c k) else c k

/-- The updater passed by useIncrementViews: absent entries stay absent, a
cached record gets views set to (old.views or 0) + 1. -/
def incrementViewsUpdater : Option Property → Option Property
  | none => none
  | some p => some { p with views := some (p.views.getD 0 + 1) }

/-- Cache observations produced by one run of the increment-views mutation:
the cache while the remote request is in flight and the cache after the
mutation settled. -/
structure ViewMutationTrace where
  pending : DetailCache
  settled : DetailCache

/-- One run of useIncrementViews: the mutationFn succeeds immediately when
the backend is not configured, otherwise it succeeds or throws with the
remote call; onSuccess (the only cache-touching callback) runs only in the
success case, after the response. -/
def runIncrementViews (isConfigured : Bool) (remote : RemoteOutcome)
    (propertyId : String) (c : DetailCache) : ViewMutationTrace :=
  let success := if isConfigured then remote = RemoteOutcome.ok else True
  { pending := c,
    settled :=
      if success then
        setDetailQueryData propertyId incrementViewsUpdater c
      else c }

/-- Cached detail record for property 1 with a views counter of 0. -/
def cachedProperty1 : Property :=
  { mockProperty1 with views := some 0 }

/-- Detail cache holding only property 1 at views 0. -/
def viewsCacheStart : DetailCache :=
  fun k => if k = "1" then some cachedProperty1 else none

/-- C2: the view-count increment is not optimistic, although the inline
comment in useIncrementViews says it is.  Starting from a cache holding
property 1 at views 0 with a configured backend: while the remote mutation
is in flight the cache still shows views 0 (nothing runs before the
response), when the remote mutation fails the cache still shows views 0
afterwards (onSuccess never ran), and only a successful response yields
views 1. -/
theorem incrementViews_updates_only_after_success :
    (runIncrementViews true RemoteOutcome.err "1" viewsCacheStart).pending
        "1" = some cachedProperty1 ∧
    (runIncrementViews true RemoteOutcome.ok "1" viewsCacheStart).pending
        "1" = some cachedProperty1 ∧
    (runIncrementViews true RemoteOutcome.err "1" viewsCacheStart).settled
        "1" = some cachedProperty1 ∧
    (runIncrementViews true RemoteOutcome.ok "1" viewsCacheStart).settled
        "1" = some { cachedProperty1 with views := some 1 } ∧
    cachedProperty1.views = some 0 := by
  refine ⟨rfl, rfl, ?_, ?_, rfl⟩ <;>
    simp [runIncrementViews, viewsCacheStart, setDetailQueryData,
      incrementViewsUpdater, cachedProperty1]

/-!
Retry policy of the query client (src/main.tsx): a failed query is retried
while fewer than 3 failures have occurred, except that an error whose status
lies in the 4xx range is never retried.  A missing status makes both range
comparisons false in JavaScript, selecting the failure-count branch.
-/

/-- Retry callback from the queryClient default options: given the number of
failures so far and the optional numeric status of the error, decide whether
to retry. -/
def retryDecision (failureCount : Nat) (status : Option Nat) : Bool :=
  match status with
  | some s => if 400 ≤ s ∧ s < 500 then false else decide (failureCount < 3)
  | none => decide (failureCount < 3)

/-- C9 counterexample: a first-time failure with a server-side status 500 is
retried by the core, so the core does perform automatic retries. -/
theorem retryDecision_retries_server_error :
    retryDecision 0 (some 500) = true :=
  rfl

/-- C9 amended: the query client retries a failed request exactly when fewer
than 3 failures have occurred and the error status is not in the 4xx range;
in particular 4xx errors are never retried and every other failure is
retried up to 3 attempts. -/
theorem retryDecision_spec (failureCount : Nat) (status : Option Nat) :
    retryDecision failureCount status = true ↔
      failureCount < 3 ∧
        ∀ s, status = some s → ¬(400 ≤ s ∧ s < 500) := by
  cases status with
  | none => simp [retryDecision]
  | some s =>
    by_cases h : 400 ≤ s ∧ s < 500
    · simp [retryDecision, h]
    · simp [retryDecision, h]
      omega

/-!
Query cache and mutation invalidation.  PROPERTY_KEYS builds hierarchical
array keys; queryClient.invalidateQueries and removeQueries match every
cached query whose key extends the supplied key (prefix matching), while
setQueryData addresses one exact key.  The cache is modelled as a partial
map from keys to slots carrying a staleness flag and the cached payload;
invalidation marks a slot stale, removal drops the slot, setQueryData writes
a fresh slot with the given payload.
-/

/-- One element of a structured query key: a string literal or an embedded
filter object (PROPERTY_KEYS.list embeds the filter set). -/
inductive KeyPart where
  | str (s : String)
  | flt (f : SearchFilters)
deriving DecidableEq

/-- Structured query key, an array of key parts. -/
abbrev QueryKey : Type :=
  List KeyPart

/-- PROPERTY_KEYS.all. -/
def propertyKeysAll : QueryKey :=
  [KeyPart.str "properties"]

/-- PROPERTY_KEYS.lists(). -/
def propertyKeysLists : QueryKey :=
  propertyKeysAll ++ [KeyPart.str "list"]

/-- PROPERTY_KEYS.list(filters). -/
def propertyKeysList (filters : SearchFilters) : QueryKey :=
  propertyKeysLists ++ [KeyPart.flt filters]

/-- PROPERTY_KEYS.detail(id). -/
def propertyKeysDetail (id : String) : QueryKey :=
  propertyKeysAll ++ [KeyPart.str "detail", KeyPart.str id]

/-- PROPERTY_KEYS.byOwner(ownerId). -/
def propertyKeysByOwner (ownerId : String) : QueryKey :=
  propertyKeysAll ++ [KeyPart.str "owner", KeyPart.str ownerId]

/-- Prefix matching used by invalidateQueries and removeQueries: the
supplied key must be an initial segment of the cached query key. -/
def keyMatches : QueryKey → QueryKey → Bool
  | [], _ => true
  | _ :: _, [] => false
  | a :: as, b :: bs => decide (a = b) && keyMatches as bs

/-- Payload of a cached query: a detail entry (one record or a cached
not-found) or a list entry. -/
inductive QueryData where
  | detailEntry (p : Option Property)
  | listEntry (ps : List Property)
deriving DecidableEq

/-- One cache slot: staleness flag plus payload. -/
structure CacheSlot where
  stale : Bool
  data : QueryData
deriving DecidableEq

/-- The query cache, a partial map from keys to slots. -/
def QueryCache : Type :=
  QueryKey → Option CacheSlot

/-- queryClient.invalidateQueries: every cached entry whose key extends the
supplied key is marked stale. -/
def invalidateQueries (key : QueryKey) (c : QueryCache) : QueryCache :=
  fun k =>
    (c k).map (fun slot =>
      if keyMatches key k then { slot with stale := true } else slot)

/-- queryClient.removeQueries: every cached entry whose key extends the
supplied key is dropped. -/
def removeQueries (key : QueryKey) (c : QueryCache) : QueryCache :=
  fun k => if keyMatches key k then none else c k

/-- queryClient.setQueryData: the entry at exactly the supplied key is
replaced by a fresh slot holding the given payload. -/
def setQueryData (key : QueryKey) (d : QueryData) (c : QueryCache) :
    QueryCache :=
  fun k => if k = key then some { stale := false, data := d } else c k

/-- onSuccess of useCreateProperty: invalidate the list keys, then the
owner-scoped key of the new record. -/
def createOnSuccess (newProperty : Property) (c : QueryCache) : QueryCache :=
  invalidateQueries (propertyKeysByOwner newProperty.ownerId)
    (invalidateQueries propertyKeysLists c)

/-- onSuccess of useUpdateProperty: write the authoritative response into
the detail key, then invalidate the list keys and the owner-scoped key. -/
def updateOnSuccess (updatedProperty : Property) (c : QueryCache) :
    QueryCache :=
  invalidateQueries (propertyKeysByOwner updatedProperty.ownerId)
    (invalidateQueries propertyKeysLists
      (setQueryData (propertyKeysDetail updatedProperty.id)
        (QueryData.detailEntry (some updatedProperty)) c))

/-- onSuccess of useDeleteProperty: remove the detail key, then invalidate
the list keys and the whole properties key space. -/
def deleteOnSuccess (deletedId : String) (c : QueryCache) : QueryCache :=
  invalidateQueries propertyKeysAll
    (invalidateQueries propertyKeysLists
      (removeQueries (propertyKeysDetail deletedId) c))

/-- A key no longer serves stale pre-mutation data: its entry is gone (next
read refetches), marked stale (next read refetches), or holds exactly the
authoritative payload of the mutation. -/
def refreshedAt (c : QueryCache) (k : QueryKey) (auth : Option QueryData) :
    Prop :=
  match c k with
  | none => True
  | some slot => slot.stale = true ∨ auth = some slot.data

/-- Every slot the cache still holds at this key is marked stale. -/
def staleAt (c : QueryCache) (k : QueryKey) : Prop :=
  ∀ slot, c k = some slot → slot.stale = true

lemma staleAt_invalidate_self {key k : QueryKey} (c : QueryCache)
    (h : keyMatches key k = true) :
    staleAt (invalidateQueries key c) k := by
  intro slot hs
  unfold invalidateQueries at hs
  cases hck : c k with
  | none => simp [hck] at hs
  | some s =>
    simp [hck, h] at hs
    simp [← hs]

lemma staleAt_invalidate_mono {k : QueryKey} (key : QueryKey)
    (c : QueryCache) (h : staleAt c k) :
    staleAt (invalidateQueries key c) k := by
  intro slot hs
  unfold invalidateQueries at hs
  cases hck : c k with
  | none => simp [hck] at hs
  | some s =>
    have hst := h s hck
    simp [hck] at hs
    cases hkm : keyMatches key k <;> simp [hkm] at hs <;> simp [← hs, hst]

lemma refreshedAt_of_staleAt {c : QueryCache} {k : QueryKey}
    (h : staleAt c k) (auth : Option QueryData) :
    refreshedAt c k auth := by
  unfold refreshedAt
  cases hck : c k with
  | none => trivial
  | some slot => exact Or.inl (h slot hck)

lemma keyMatches_lists_detail (i : String) :
    keyMatches propertyKeysLists (propertyKeysDetail i) = false :=
  rfl

lemma keyMatches_byOwner_detail (o i : String) :
    keyMatches (propertyKeysByOwner o) (propertyKeysDetail i) = false :=
  rfl

lemma keyMatches_refl (k : QueryKey) : keyMatches k k = true := by
  induction k with
  | nil => rfl
  | cons a as ih => simp [keyMatches, ih]

lemma keyMatches_all_of_byOwner (o : String) (k : QueryKey)
    (h : keyMatches (propertyKeysByOwner o) k = true) :
    keyMatches propertyKeysAll k = true := by
  cases k with
  | nil => simp [propertyKeysByOwner, propertyKeysAll, keyMatches] at h
  | cons a as =>
    simp [propertyKeysByOwner, propertyKeysAll, keyMatches] at h ⊢
    exact h.1

/-- C8 amended: after a successful update the detail key holds the
authoritative response and every list key and the owner-scoped key is
invalidated; after a successful delete the detail key is removed and every
list key and owner-scoped key is invalidated (the latter through the
whole-key-space invalidation); after a successful create the list keys and
the owner-scoped key are invalidated, but the detail cache key of the new
record is left exactly as it was. -/
theorem mutation_cache_invalidation (c : QueryCache) (p : Property)
    (k : QueryKey) :
    refreshedAt (updateOnSuccess p c) (propertyKeysDetail p.id)
        (some (QueryData.detailEntry (some p))) ∧
    (keyMatches propertyKeysLists k = true →
      refreshedAt (updateOnSuccess p c) k none) ∧
    (keyMatches (propertyKeysByOwner p.ownerId) k = true →
      refreshedAt (updateOnSuccess p c) k none) ∧
    refreshedAt (deleteOnSuccess p.id c) (propertyKeysDetail p.id) none ∧
    (keyMatches propertyKeysLists k = true →
      refreshedAt (deleteOnSuccess p.id c) k none) ∧
    (keyMatches (propertyKeysByOwner p.ownerId) k = true →
      refreshedAt (deleteOnSuccess p.id c) k none) ∧
    (keyMatches propertyKeysLists k = true →
      refreshedAt (createOnSuccess p c) k none) ∧
    (keyMatches (propertyKeysByOwner p.ownerId) k = true →
      refreshedAt (createOnSuccess p c) k none) ∧
    createOnSuccess p c (propertyKeysDetail p.id) =
      c (propertyKeysDetail p.id) := by
  refine ⟨?_, ?_, ?_, ?_, ?_, ?_, ?_, ?_, ?_⟩
  · unfold updateOnSuccess refreshedAt
    simp [invalidateQueries, setQueryData, keyMatches_lists_detail,
      keyMatches_byOwner_detail]
  · intro h
    exact refreshedAt_of_staleAt
      (staleAt_invalidate_mono _ _ (staleAt_invalidate_self _ h)) none
  · intro h
    exact refreshedAt_of_staleAt (staleAt_invalidate_self _ h) none
  · unfold deleteOnSuccess refreshedAt
    simp [invalidateQueries, removeQueries, keyMatches_refl]
  · intro h
    exact refreshedAt_of_staleAt
      (staleAt_invalidate_mono _ _ (staleAt_invalidate_self _ h)) none
  · intro h
    exact refreshedAt_of_staleAt
      (staleAt_invalidate_self _ (keyMatches_all_of_byOwner _ _ h)) none
  · intro h
    exact refreshedAt_of_staleAt
      (staleAt_invalidate_mono _ _ (staleAt_invalidate_self _ h)) none
  · intro h
    exact refreshedAt_of_staleAt (staleAt_invalidate_self _ h) none
  · unfold createOnSuccess
    simp [invalidateQueries, keyMatches_lists_detail,
      keyMatches_byOwner_detail]

theorem mutation_cache_invalidation_witness :
    keyMatches propertyKeysLists (propertyKeysList {}) = true ∧
    keyMatches (propertyKeysByOwner mockProperty1.ownerId)
        (propertyKeysByOwner mockProperty1.ownerId) = true ∧
    refreshedAt
      (updateOnSuccess mockProperty1 (fun _ => none))
      (propertyKeysList {}) none ∧
    refreshedAt
      (deleteOnSuccess mockProperty1.id (fun _ => none))
      (propertyKeysByOwner mockProperty1.ownerId) none ∧
    refreshedAt
      (createOnSuccess mockProperty1 (fun _ => none))
      (propertyKeysList {}) none :=
  ⟨rfl, keyMatches_refl _,
    (mutation_cache_invalidation (fun _ => none) mockProperty1
      (propertyKeysList {})).2.1 rfl,
    (mutation_cache_invalidation (fun _ => none) mockProperty1
      (propertyKeysByOwner mockProperty1.ownerId)).2.2.2.2.2.1
      (keyMatches_refl _),
    (mutation_cache_invalidation (fun _ => none) mockProperty1
      (propertyKeysList {})).2.2.2.2.2.2.1 rfl⟩

/-- New record used as the create-mutation response in the counterexample. -/
def createdProperty42 : Property :=
  { mockProperty1 with id := "42", ownerId := "owner-9" }

/-- Cache holding one fresh detail entry for id 42 (a cached not-found from
before the creation). -/
def preCreateCache : QueryCache :=
  fun k =>
    if k = propertyKeysDetail "42" then
      some { stale := false, data := QueryData.detailEntry none }
    else none

/-- C8 counterexample: after the create mutation for the record with id 42
succeeds, the detail cache key for id 42 still holds its pre-mutation
payload and is still marked fresh; the create handler never invalidates or
overwrites the detail key. -/
theorem create_leaves_detail_key_stale :
    createdProperty42.id = "42" ∧
    createOnSuccess createdProperty42 preCreateCache
        (propertyKeysDetail "42") =
      some { stale := false, data := QueryData.detailEntry none } := by
  refine ⟨rfl, ?_⟩
  simp [createOnSuccess, invalidateQueries, preCreateCache,
    keyMatches_lists_detail, keyMatches_byOwner_detail, createdProperty42]
